import Mathlib

/-!
# Verification of the png-codec chunk decoders

Shallow embedding of `src/chunks/chunk_IHDR.ts` and `src/chunks/chunk_cHRM.ts`.

The byte buffer backing the JavaScript `DataView` is modelled as a function
`Nat → Nat` (each cell a byte once reduced mod 256).  The mutable parts that a
decoder call can touch — the byte buffer and the `decodedPng.warnings` array —
are collected in a `DecodeState` record that every decoder receives and
returns, so that mutation (or its absence) is visible in the model.  A fatal
failure (a thrown `ChunkError`) is the `Except.error` outcome; since no code
path of either decoder appends a warning after the point of a throw, the state
returned alongside an error is the state at the moment of the throw.

JavaScript numbers are modelled as exact rationals (`ℚ`) where division
occurs (the cHRM coordinate conversion); all other arithmetic is on `Nat`.

The helpers from `src/assert.ts` and the constants from `src/types.ts` are not
part of the sources; they are modelled from the spec, as marked on each
definition.
-/

/-- A chunk record: type tag, byte offset of the chunk start in the buffer,
and the payload (data) length, mirroring the fields of `IPngChunk` that the
two decoders read (`chunk.offset`, and the length checked by
`assertChunkDataLengthEquals`). -/
structure PngChunk where
  type : String
  offset : Nat
  dataLength : Nat
deriving DecidableEq, Repr

/-- A diagnostic: the `ChunkError` of `src/assert.ts`, carrying the offending
chunk and a message, as constructed at each `new ChunkError(chunk, msg)` site. -/
structure ChunkError where
  chunk : PngChunk
  message : String
deriving DecidableEq, Repr

/-- The mutable state a decoder call can observe and modify: the byte buffer
behind the `DataView`, and the `decodedPng.warnings` sequence. -/
structure DecodeState where
  dataView : Nat → Nat
  warnings : List ChunkError

/-- `DataView.prototype.getUint8`: one byte at `o`. -/
def getUint8 (dataView : Nat → Nat) (o : Nat) : Nat :=
  dataView o % 256

/-- `DataView.prototype.getUint32` (default big-endian): four bytes at
`o .. o+3`, most significant first. -/
def getUint32 (dataView : Nat → Nat) (o : Nat) : Nat :=
  getUint8 dataView o * 16777216 + getUint8 dataView (o + 1) * 65536 +
    getUint8 dataView (o + 2) * 256 + getUint8 dataView (o + 3)

namespace ChunkPartByteLength

/-- Modelled from the spec: `ChunkPartByteLength.Length` lives in
`src/types.ts`, which is not among the sources.  The spec describes a chunk as
"a self-contained, typed length-prefixed record (length + type tag + payload +
checksum)" with all multi-byte integers big-endian 4-byte reads; the length
field is the 4-byte length prefix. -/
def Length : Nat := 4

/-- Modelled from the spec: `ChunkPartByteLength.Type` from `src/types.ts`
(not among the sources); the spec's chunk record carries a "type tag
(4-character identifier)", i.e. 4 bytes. -/
def TypeField : Nat := 4

end ChunkPartByteLength

/-- Offset of the first payload byte of a chunk:
`chunk.offset + ChunkPartByteLength.Length + ChunkPartByteLength.Type`,
as computed at the top of both decoders. -/
def payloadStart (chunk : PngChunk) : Nat :=
  chunk.offset + ChunkPartByteLength.Length + ChunkPartByteLength.TypeField

/-- Modelled from the spec: `handleWarning` is defined in `src/assert.ts`,
which is not among the sources.  Per the spec (§4.1): "if `context.strictMode`
is true, immediately propagates the diagnostic as a fatal failure (decode
aborts, no partial result); if false, appends the diagnostic to
`context.warnings` and returns normally".  The call sites pass
`options?.strictMode`, which is `undefined` when no options object was given,
hence the `Option Bool`. -/
def handleWarning (e : ChunkError) (warnings : List ChunkError)
    (strictMode : Option Bool) : Except ChunkError (List ChunkError) :=
  if strictMode = some true then Except.error e
  else Except.ok (warnings ++ [e])

/-- Modelled from the spec: `assertChunkDataLengthEquals` is defined in
`src/assert.ts`, which is not among the sources.  Per the spec (§4.1 and §9):
it "fails fatally, unconditionally (not gated by strict mode), when
`chunk.length != expected`"; the warnings sequence and strict-mode flag are
accepted (the IHDR call site passes them, the cHRM call site omits them) but
do not affect the outcome. -/
def assertChunkDataLengthEquals (chunk : PngChunk) (expected : Nat)
    (warnings : List ChunkError) (strictMode : Option Bool) :
    Except ChunkError Unit :=
  if chunk.dataLength = expected then Except.ok ()
  else Except.error ⟨chunk, "Invalid data length: " ++ toString chunk.dataLength
    ++ " !== " ++ toString expected⟩

/-- Modelled from the spec: `assertChunkCompressionMethod` is defined in
`src/assert.ts`, which is not among the sources.  Per the spec (§4.2 item 3):
"compressionMethod == 0 — soft (routed through warning policy)". -/
def assertChunkCompressionMethod (chunk : PngChunk) (compressionMethod : Nat)
    (warnings : List ChunkError) (strictMode : Option Bool) :
    Except ChunkError (List ChunkError) :=
  if compressionMethod = 0 then Except.ok warnings
  else handleWarning
    ⟨chunk, "Compression method \"" ++ toString compressionMethod ++ "\" is not valid"⟩
    warnings strictMode

/-- `isValidBitDepth` of `chunk_IHDR.ts`. -/
def isValidBitDepth (bitDepth : Nat) : Bool :=
  bitDepth = 1 || bitDepth = 2 || bitDepth = 4 || bitDepth = 8 || bitDepth = 16

/-- `isValidInterlaceMethod` of `chunk_IHDR.ts`. -/
def isValidInterlaceMethod (interlaceMethod : Nat) : Bool :=
  interlaceMethod = 0 || interlaceMethod = 1

/-- `IPngHeaderDetails` as constructed by the return statement of
`parseChunk_IHDR`: the five retained fields. -/
structure IPngHeaderDetails where
  width : Nat
  height : Nat
  bitDepth : Nat
  colorType : Nat
  interlaceMethod : Nat
deriving DecidableEq, Repr

/-- `parseChunk_IHDR` of `chunk_IHDR.ts`.  The length assertion runs first;
then the seven fields are read big-endian at consecutive offsets from the
payload start; an invalid bit depth throws unconditionally; compression
method, filter method and interlace method are soft-checked in that order.
The returned `DecodeState` is the state at return (on success) or at the
moment of the throw (on a fatal failure). -/
def parseChunk_IHDR (chunk : PngChunk) (strictMode : Option Bool)
    (st : DecodeState) : Except ChunkError IPngHeaderDetails × DecodeState :=
  match assertChunkDataLengthEquals chunk 13 st.warnings strictMode with
  | Except.error e => (Except.error e, st)
  | Except.ok _ =>
    let offset := chunk.offset + ChunkPartByteLength.Length + ChunkPartByteLength.TypeField
    let width := getUint32 st.dataView offset
    let height := getUint32 st.dataView (offset + 4)
    let bitDepth := getUint8 st.dataView (offset + 8)
    let colorType := getUint8 st.dataView (offset + 9)
    let compressionMethod := getUint8 st.dataView (offset + 10)
    let filterMethod := getUint8 st.dataView (offset + 11)
    let interlaceMethod := getUint8 st.dataView (offset + 12)
    if isValidBitDepth bitDepth then
      match assertChunkCompressionMethod chunk compressionMethod st.warnings strictMode with
      | Except.error e => (Except.error e, st)
      | Except.ok w1 =>
        match (if filterMethod ≠ 0 then
            handleWarning
              ⟨chunk, "Filter method \"" ++ toString filterMethod ++ "\" is not valid"⟩
              w1 strictMode
          else Except.ok w1) with
        | Except.error e => (Except.error e, ⟨st.dataView, w1⟩)
        | Except.ok w2 =>
          match (if ¬ isValidInterlaceMethod interlaceMethod then
              handleWarning
                ⟨chunk, "Interlace method \"" ++ toString interlaceMethod ++ "\" is not valid"⟩
                w2 strictMode
            else Except.ok w2) with
          | Except.error e => (Except.error e, ⟨st.dataView, w2⟩)
          | Except.ok w3 =>
            (Except.ok ⟨width, height, bitDepth, colorType, interlaceMethod⟩,
              ⟨st.dataView, w3⟩)
    else
      (Except.error
        ⟨chunk, "Bit depth \"" ++ toString bitDepth ++ "\" is not valid"⟩, st)

/-- One chromaticity coordinate pair, the `{ x, y }` object literals of
`chunk_cHRM.ts`. -/
structure ChromaticityPoint where
  x : ℚ
  y : ℚ
deriving DecidableEq, Repr

/-- `IPngMetadataChromaticity` as constructed by the return statement of the
cHRM `parseChunk`: the `'cHRM'` type tag plus the four coordinate pairs. -/
structure IPngMetadataChromaticity where
  type : String
  whitePoint : ChromaticityPoint
  red : ChromaticityPoint
  green : ChromaticityPoint
  blue : ChromaticityPoint
deriving DecidableEq, Repr

namespace chunk_cHRM

/-- `parseChunk` of `chunk_cHRM.ts`.  The length assertion runs first (called
without a warnings sequence or strict-mode flag); then eight unsigned 4-byte
big-endian integers are read at consecutive offsets from the payload start and
each is divided by 100000 (exact rational division models the JavaScript
number division).  The `header` argument is accepted but never read, as in the
source.  The state is returned unchanged on every path. -/
def parseChunk (header : IPngHeaderDetails) (chunk : PngChunk)
    (st : DecodeState) : Except ChunkError IPngMetadataChromaticity × DecodeState :=
  match assertChunkDataLengthEquals chunk 32 [] none with
  | Except.error e => (Except.error e, st)
  | Except.ok _ =>
    let offset := chunk.offset + ChunkPartByteLength.Length + ChunkPartByteLength.TypeField
    let whitePoint : ChromaticityPoint :=
      ⟨(getUint32 st.dataView offset : ℚ) / 100000,
       (getUint32 st.dataView (offset + 4) : ℚ) / 100000⟩
    let red : ChromaticityPoint :=
      ⟨(getUint32 st.dataView (offset + 8) : ℚ) / 100000,
       (getUint32 st.dataView (offset + 12) : ℚ) / 100000⟩
    let green : ChromaticityPoint :=
      ⟨(getUint32 st.dataView (offset + 16) : ℚ) / 100000,
       (getUint32 st.dataView (offset + 20) : ℚ) / 100000⟩
    let blue : ChromaticityPoint :=
      ⟨(getUint32 st.dataView (offset + 24) : ℚ) / 100000,
       (getUint32 st.dataView (offset + 28) : ℚ) / 100000⟩
    (Except.ok ⟨"cHRM", whitePoint, red, green, blue⟩, st)

end chunk_cHRM

/-- If `handleWarning` returns normally, the resulting warnings sequence is the
input sequence with exactly the given diagnostic appended. -/
theorem handleWarning_ok {e : ChunkError} {w w' : List ChunkError}
    {s : Option Bool} (h : handleWarning e w s = Except.ok w') : w' = w ++ [e] := by
  unfold handleWarning at h
  split at h
  · exact absurd h (by simp)
  · exact (Except.ok.injEq _ _).mp h |>.symm

/-- If the compression-method assertion returns normally, the resulting
warnings sequence extends the input sequence. -/
theorem assertChunkCompressionMethod_ok {chunk : PngChunk} {m : Nat}
    {w w' : List ChunkError} {s : Option Bool}
    (h : assertChunkCompressionMethod chunk m w s = Except.ok w') :
    ∃ t, w' = w ++ t := by
  unfold assertChunkCompressionMethod at h
  split at h
  · exact ⟨[], by simpa using ((Except.ok.injEq _ _).mp h).symm⟩
  · exact ⟨_, handleWarning_ok h⟩

/-- C1: for every 13-byte header chunk payload whose fields satisfy
bitDepth ∈ \x7b1,2,4,8,16\x7d, compressionMethod = 0, filterMethod = 0 and
interlaceMethod ∈ \x7b0,1\x7d, `parseChunk_IHDR` succeeds (no fatal failure, in
strict or lenient mode alike), returns width, height, bitDepth, colorType and
interlaceMethod equal to the big-endian values read from the payload at
offsets 0, 4, 8, 9 and 12, and leaves the warnings sequence (indeed the whole
state) unchanged. -/
theorem parseChunk_IHDR_valid_payload (chunk : PngChunk)
    (strictMode : Option Bool) (st : DecodeState)
    (hlen : chunk.dataLength = 13)
    (hbd : getUint8 st.dataView (payloadStart chunk + 8) = 1 ∨
           getUint8 st.dataView (payloadStart chunk + 8) = 2 ∨
           getUint8 st.dataView (payloadStart chunk + 8) = 4 ∨
           getUint8 st.dataView (payloadStart chunk + 8) = 8 ∨
           getUint8 st.dataView (payloadStart chunk + 8) = 16)
    (hcm : getUint8 st.dataView (payloadStart chunk + 10) = 0)
    (hfm : getUint8 st.dataView (payloadStart chunk + 11) = 0)
    (him : getUint8 st.dataView (payloadStart chunk + 12) = 0 ∨
           getUint8 st.dataView (payloadStart chunk + 12) = 1) :
    parseChunk_IHDR chunk strictMode st =
      (Except.ok
        ⟨getUint32 st.dataView (payloadStart chunk),
         getUint32 st.dataView (payloadStart chunk + 4),
         getUint8 st.dataView (payloadStart chunk + 8),
         getUint8 st.dataView (payloadStart chunk + 9),
         getUint8 st.dataView (payloadStart chunk + 12)⟩, st) := by
  have hbd' : isValidBitDepth (getUint8 st.dataView (payloadStart chunk + 8)) = true := by
    rcases hbd with h | h | h | h | h <;> simp [isValidBitDepth, h]
  have him' : isValidInterlaceMethod (getUint8 st.dataView (payloadStart chunk + 12)) = true := by
    rcases him with h | h <;> simp [isValidInterlaceMethod, h]
  unfold parseChunk_IHDR assertChunkDataLengthEquals assertChunkCompressionMethod
  simp only [payloadStart] at hbd' him' hcm hfm
  simp [hlen, hbd', him', hcm, hfm, payloadStart]

/-- A concrete byte buffer holding one IHDR chunk at offset 0: length 13, tag
"IHDR", then the 13 payload bytes width=2, height=3, bitDepth=8, colorType=2,
compressionMethod=0, filterMethod=0, interlaceMethod=0. -/
def exIHDRView : Nat → Nat := fun o =>
  [0, 0, 0, 13, 73, 72, 68, 82,
   0, 0, 0, 2, 0, 0, 0, 3, 8, 2, 0, 0, 0].getD o 0

/-- Witness for C1 at a concrete valid IHDR chunk, in lenient mode with an
empty warnings sequence. -/
theorem parseChunk_IHDR_valid_payload_witness :
    parseChunk_IHDR ⟨"IHDR", 0, 13⟩ none ⟨exIHDRView, []⟩ =
      (Except.ok ⟨2, 3, 8, 2, 0⟩, ⟨exIHDRView, []⟩) := by
  have h := parseChunk_IHDR_valid_payload ⟨"IHDR", 0, 13⟩ none ⟨exIHDRView, []⟩
    rfl (Or.inr (Or.inr (Or.inr (Or.inl (by decide)))))
    (by decide) (by decide) (Or.inl (by decide))
  rw [h]
  rfl

/-- C2: for every header chunk whose payload length is not 13,
`parseChunk_IHDR` fails fatally — with the same error, for every value of the
strict-mode flag (strict, lenient or absent) — and the state is unchanged. -/
theorem parseChunk_IHDR_bad_length (chunk : PngChunk) (strictMode : Option Bool)
    (st : DecodeState) (hlen : chunk.dataLength ≠ 13) :
    parseChunk_IHDR chunk strictMode st =
      (Except.error ⟨chunk, "Invalid data length: " ++ toString chunk.dataLength
        ++ " !== " ++ toString 13⟩, st) := by
  unfold parseChunk_IHDR assertChunkDataLengthEquals
  simp [hlen]

/-- Witness for C2 at a concrete 12-byte header chunk, in both strict and
lenient mode. -/
theorem parseChunk_IHDR_bad_length_witness :
    parseChunk_IHDR ⟨"IHDR", 0, 12⟩ (some true) ⟨exIHDRView, []⟩ =
      (Except.error ⟨⟨"IHDR", 0, 12⟩, "Invalid data length: 12 !== 13"⟩,
        ⟨exIHDRView, []⟩) ∧
    parseChunk_IHDR ⟨"IHDR", 0, 12⟩ (some false) ⟨exIHDRView, []⟩ =
      (Except.error ⟨⟨"IHDR", 0, 12⟩, "Invalid data length: 12 !== 13"⟩,
        ⟨exIHDRView, []⟩) :=
  ⟨parseChunk_IHDR_bad_length ⟨"IHDR", 0, 12⟩ (some true) ⟨exIHDRView, []⟩ (by decide),
   parseChunk_IHDR_bad_length ⟨"IHDR", 0, 12⟩ (some false) ⟨exIHDRView, []⟩ (by decide)⟩

/-- C3: for every 13-byte header chunk payload whose bitDepth byte (payload
offset 8) is not one of 1, 2, 4, 8, 16, `parseChunk_IHDR` fails fatally, for
every value of the strict-mode flag, and the state (in particular the warnings
sequence) is unchanged. -/
theorem parseChunk_IHDR_bad_bitDepth (chunk : PngChunk) (strictMode : Option Bool)
    (st : DecodeState) (hlen : chunk.dataLength = 13)
    (hbd : ¬(getUint8 st.dataView (payloadStart chunk + 8) = 1 ∨
             getUint8 st.dataView (payloadStart chunk + 8) = 2 ∨
             getUint8 st.dataView (payloadStart chunk + 8) = 4 ∨
             getUint8 st.dataView (payloadStart chunk + 8) = 8 ∨
             getUint8 st.dataView (payloadStart chunk + 8) = 16)) :
    parseChunk_IHDR chunk strictMode st =
      (Except.error ⟨chunk, "Bit depth \""
        ++ toString (getUint8 st.dataView (payloadStart chunk + 8))
        ++ "\" is not valid"⟩, st) := by
  have hbd' : isValidBitDepth (getUint8 st.dataView (payloadStart chunk + 8)) = false := by
    push_neg at hbd
    obtain ⟨h1, h2, h4, h8, h16⟩ := hbd
    simp [isValidBitDepth, h1, h2, h4, h8, h16]
  unfold parseChunk_IHDR assertChunkDataLengthEquals
  simp only [payloadStart] at hbd'
  simp [hlen, hbd', payloadStart]

/-- A concrete byte buffer holding one IHDR chunk at offset 0 whose bitDepth
byte is 7 (invalid). -/
def exIHDRBadDepthView : Nat → Nat := fun o =>
  [0, 0, 0, 13, 73, 72, 68, 82,
   0, 0, 0, 2, 0, 0, 0, 3, 7, 2, 0, 0, 0].getD o 0

/-- Witness for C3 at a concrete chunk with bitDepth byte 7, in both strict
and lenient mode. -/
theorem parseChunk_IHDR_bad_bitDepth_witness :
    parseChunk_IHDR ⟨"IHDR", 0, 13⟩ (some true) ⟨exIHDRBadDepthView, []⟩ =
      (Except.error ⟨⟨"IHDR", 0, 13⟩, "Bit depth \"7\" is not valid"⟩,
        ⟨exIHDRBadDepthView, []⟩) ∧
    parseChunk_IHDR ⟨"IHDR", 0, 13⟩ none ⟨exIHDRBadDepthView, []⟩ =
      (Except.error ⟨⟨"IHDR", 0, 13⟩, "Bit depth \"7\" is not valid"⟩,
        ⟨exIHDRBadDepthView, []⟩) := by
  have h1 := parseChunk_IHDR_bad_bitDepth ⟨"IHDR", 0, 13⟩ (some true)
    ⟨exIHDRBadDepthView, []⟩ rfl (by decide)
  have h2 := parseChunk_IHDR_bad_bitDepth ⟨"IHDR", 0, 13⟩ none
    ⟨exIHDRBadDepthView, []⟩ rfl (by decide)
  rw [h1] at *
  exact ⟨by rfl, by rw [h2]; rfl⟩

/-- C4: for every 13-byte header chunk payload that is valid except that its
filterMethod byte (payload offset 11) is nonzero: in lenient mode (strict-mode
flag false or absent) `parseChunk_IHDR` succeeds and appends exactly one
diagnostic — carrying the offending chunk — to the warnings sequence; in
strict mode it fails fatally with that same diagnostic and the state (hence
the warnings sequence, which thus remains empty when it started empty) is
unchanged. -/
theorem parseChunk_IHDR_bad_filterMethod (chunk : PngChunk) (st : DecodeState)
    (hlen : chunk.dataLength = 13)
    (hbd : getUint8 st.dataView (payloadStart chunk + 8) = 1 ∨
           getUint8 st.dataView (payloadStart chunk + 8) = 2 ∨
           getUint8 st.dataView (payloadStart chunk + 8) = 4 ∨
           getUint8 st.dataView (payloadStart chunk + 8) = 8 ∨
           getUint8 st.dataView (payloadStart chunk + 8) = 16)
    (hcm : getUint8 st.dataView (payloadStart chunk + 10) = 0)
    (hfm : getUint8 st.dataView (payloadStart chunk + 11) ≠ 0)
    (him : getUint8 st.dataView (payloadStart chunk + 12) = 0 ∨
           getUint8 st.dataView (payloadStart chunk + 12) = 1) :
    (∀ strictMode : Option Bool, strictMode ≠ some true →
      parseChunk_IHDR chunk strictMode st =
        (Except.ok
          ⟨getUint32 st.dataView (payloadStart chunk),
           getUint32 st.dataView (payloadStart chunk + 4),
           getUint8 st.dataView (payloadStart chunk + 8),
           getUint8 st.dataView (payloadStart chunk + 9),
           getUint8 st.dataView (payloadStart chunk + 12)⟩,
         ⟨st.dataView, st.warnings ++
           [⟨chunk, "Filter method \""
             ++ toString (getUint8 st.dataView (payloadStart chunk + 11))
             ++ "\" is not valid"⟩]⟩)) ∧
    parseChunk_IHDR chunk (some true) st =
      (Except.error ⟨chunk, "Filter method \""
        ++ toString (getUint8 st.dataView (payloadStart chunk + 11))
        ++ "\" is not valid"⟩, st) := by
  have hbd' : isValidBitDepth (getUint8 st.dataView (payloadStart chunk + 8)) = true := by
    rcases hbd with h | h | h | h | h <;> simp [isValidBitDepth, h]
  have him' : isValidInterlaceMethod (getUint8 st.dataView (payloadStart chunk + 12)) = true := by
    rcases him with h | h <;> simp [isValidInterlaceMethod, h]
  simp only [payloadStart] at hbd' him' hcm hfm
  constructor
  · intro strictMode hs
    unfold parseChunk_IHDR assertChunkDataLengthEquals assertChunkCompressionMethod handleWarning
    simp [hlen, hbd', him', hcm, hfm, hs, payloadStart]
  · unfold parseChunk_IHDR assertChunkDataLengthEquals assertChunkCompressionMethod handleWarning
    simp [hlen, hbd', him', hcm, hfm, payloadStart]

/-- A concrete byte buffer holding one IHDR chunk at offset 0 that is valid
except for filterMethod byte 5. -/
def exIHDRBadFilterView : Nat → Nat := fun o =>
  [0, 0, 0, 13, 73, 72, 68, 82,
   0, 0, 0, 2, 0, 0, 0, 3, 8, 2, 0, 5, 0].getD o 0

/-- Witness for C4 at a concrete chunk whose filterMethod byte is 5: lenient
mode succeeds appending the single diagnostic, strict mode fails fatally with
the empty warnings sequence unchanged. -/
theorem parseChunk_IHDR_bad_filterMethod_witness :
    parseChunk_IHDR ⟨"IHDR", 0, 13⟩ none ⟨exIHDRBadFilterView, []⟩ =
      (Except.ok ⟨2, 3, 8, 2, 0⟩,
        ⟨exIHDRBadFilterView,
         [⟨⟨"IHDR", 0, 13⟩, "Filter method \"5\" is not valid"⟩]⟩) ∧
    parseChunk_IHDR ⟨"IHDR", 0, 13⟩ (some true) ⟨exIHDRBadFilterView, []⟩ =
      (Except.error ⟨⟨"IHDR", 0, 13⟩, "Filter method \"5\" is not valid"⟩,
        ⟨exIHDRBadFilterView, []⟩) := by
  have h := parseChunk_IHDR_bad_filterMethod ⟨"IHDR", 0, 13⟩ ⟨exIHDRBadFilterView, []⟩
    rfl (Or.inr (Or.inr (Or.inr (Or.inl (by decide)))))
    (by decide) (by decide) (Or.inl (by decide))
  refine ⟨?_, ?_⟩
  · rw [h.1 none (by simp)]; rfl
  · rw [h.2]; rfl

/-- C5: for every 32-byte chromaticity chunk payload, each of the eight
returned coordinates equals the corresponding unsigned 4-byte big-endian
integer — read in order whitePoint.x, whitePoint.y, red.x, red.y, green.x,
green.y, blue.x, blue.y — divided by 100000, with no clamping or range
validation, and the state is unchanged. -/
theorem chunk_cHRM.parseChunk_fields (header : IPngHeaderDetails)
    (chunk : PngChunk) (st : DecodeState) (hlen : chunk.dataLength = 32) :
    chunk_cHRM.parseChunk header chunk st =
      (Except.ok
        ⟨"cHRM",
         ⟨(getUint32 st.dataView (payloadStart chunk) : ℚ) / 100000,
          (getUint32 st.dataView (payloadStart chunk + 4) : ℚ) / 100000⟩,
         ⟨(getUint32 st.dataView (payloadStart chunk + 8) : ℚ) / 100000,
          (getUint32 st.dataView (payloadStart chunk + 12) : ℚ) / 100000⟩,
         ⟨(getUint32 st.dataView (payloadStart chunk + 16) : ℚ) / 100000,
          (getUint32 st.dataView (payloadStart chunk + 20) : ℚ) / 100000⟩,
         ⟨(getUint32 st.dataView (payloadStart chunk + 24) : ℚ) / 100000,
          (getUint32 st.dataView (payloadStart chunk + 28) : ℚ) / 100000⟩⟩, st) := by
  unfold chunk_cHRM.parseChunk assertChunkDataLengthEquals
  simp [hlen, payloadStart]

/-- An arbitrary concrete header value (the cHRM decoder never reads it). -/
def exHeader : IPngHeaderDetails := ⟨2, 3, 8, 2, 0⟩

/-- A concrete byte buffer holding one cHRM chunk at offset 0 whose eight raw
integers are 31270, 32900, 64000, 33000, 30000, 60000, 15000, 6000. -/
def exCHRMView : Nat → Nat := fun o =>
  [0, 0, 0, 32, 99, 72, 82, 77,
   0, 0, 122, 38, 0, 0, 128, 132,
   0, 0, 250, 0, 0, 0, 128, 232,
   0, 0, 117, 48, 0, 0, 234, 96,
   0, 0, 58, 152, 0, 0, 23, 112].getD o 0

/-- Witness for C5: at the concrete payload encoding whitePoint=(31270,32900),
red=(64000,33000), green=(30000,60000), blue=(15000,6000), the decoder returns
whitePoint=(0.3127,0.329), red=(0.64,0.33), green=(0.3,0.6),
blue=(0.15,0.06). -/
theorem chunk_cHRM.parseChunk_fields_witness :
    chunk_cHRM.parseChunk exHeader ⟨"cHRM", 0, 32⟩ ⟨exCHRMView, []⟩ =
      (Except.ok ⟨"cHRM", ⟨0.3127, 0.329⟩, ⟨0.64, 0.33⟩, ⟨0.3, 0.6⟩, ⟨0.15, 0.06⟩⟩,
        ⟨exCHRMView, []⟩) := by
  have h := chunk_cHRM.parseChunk_fields exHeader ⟨"cHRM", 0, 32⟩ ⟨exCHRMView, []⟩ rfl
  rw [h]
  norm_num [payloadStart, ChunkPartByteLength.Length, ChunkPartByteLength.TypeField,
    (by decide : getUint32 exCHRMView 8 = 31270),
    (by decide : getUint32 exCHRMView 12 = 32900),
    (by decide : getUint32 exCHRMView 16 = 64000),
    (by decide : getUint32 exCHRMView 20 = 33000),
    (by decide : getUint32 exCHRMView 24 = 30000),
    (by decide : getUint32 exCHRMView 28 = 60000),
    (by decide : getUint32 exCHRMView 32 = 15000),
    (by decide : getUint32 exCHRMView 36 = 6000),
    Prod.mk.injEq, Except.ok.injEq,
    IPngMetadataChromaticity.mk.injEq, ChromaticityPoint.mk.injEq]

/-- Counterexample to C6: at a concrete 32-byte chromaticity chunk the
successful result carries a further field beyond the four coordinate pairs — a
`type` field holding the tag "cHRM" (from the `type: 'cHRM'` entry of the
object literal returned by the source) — so the output is not exactly
the four pairs and nothing else. -/
theorem chunk_cHRM.parseChunk_type_field_cex :
    Except.map IPngMetadataChromaticity.type
      (chunk_cHRM.parseChunk exHeader ⟨"cHRM", 0, 32⟩ ⟨exCHRMView, []⟩).1 =
      Except.ok "cHRM" ∧ "cHRM" ≠ "" := by
  constructor
  · rw [chunk_cHRM.parseChunk_fields exHeader ⟨"cHRM", 0, 32⟩ ⟨exCHRMView, []⟩ rfl]
    rfl
  · decide

/-- C6 as amended: every successful chromaticity decode returns exactly the
constant type tag "cHRM" together with the four coordinate pairs — the result
is determined by its whitePoint, red, green and blue members plus the fixed
tag, and nothing else. -/
theorem chunk_cHRM.parseChunk_result_shape (header : IPngHeaderDetails)
    (chunk : PngChunk) (st st' : DecodeState) (r : IPngMetadataChromaticity)
    (h : chunk_cHRM.parseChunk header chunk st = (Except.ok r, st')) :
    r = ⟨"cHRM", r.whitePoint, r.red, r.green, r.blue⟩ := by
  unfold chunk_cHRM.parseChunk assertChunkDataLengthEquals at h
  split at h
  · simp at h
  · simp only [Prod.mk.injEq, Except.ok.injEq] at h
    rw [← h.1]

/-- Witness for the amended C6 at a concrete successful decode. -/
theorem chunk_cHRM.parseChunk_result_shape_witness :
    (⟨"cHRM", ⟨0.3127, 0.329⟩, ⟨0.64, 0.33⟩, ⟨0.3, 0.6⟩, ⟨0.15, 0.06⟩⟩ :
        IPngMetadataChromaticity) =
      ⟨"cHRM",
       IPngMetadataChromaticity.whitePoint
         ⟨"cHRM", ⟨0.3127, 0.329⟩, ⟨0.64, 0.33⟩, ⟨0.3, 0.6⟩, ⟨0.15, 0.06⟩⟩,
       IPngMetadataChromaticity.red
         ⟨"cHRM", ⟨0.3127, 0.329⟩, ⟨0.64, 0.33⟩, ⟨0.3, 0.6⟩, ⟨0.15, 0.06⟩⟩,
       IPngMetadataChromaticity.green
         ⟨"cHRM", ⟨0.3127, 0.329⟩, ⟨0.64, 0.33⟩, ⟨0.3, 0.6⟩, ⟨0.15, 0.06⟩⟩,
       IPngMetadataChromaticity.blue
         ⟨"cHRM", ⟨0.3127, 0.329⟩, ⟨0.64, 0.33⟩, ⟨0.3, 0.6⟩, ⟨0.15, 0.06⟩⟩⟩ :=
  chunk_cHRM.parseChunk_result_shape exHeader ⟨"cHRM", 0, 32⟩ ⟨exCHRMView, []⟩
    ⟨exCHRMView, []⟩
    ⟨"cHRM", ⟨0.3127, 0.329⟩, ⟨0.64, 0.33⟩, ⟨0.3, 0.6⟩, ⟨0.15, 0.06⟩⟩
    chunk_cHRM.parseChunk_fields_witness

/-- C7: for every chromaticity chunk whose payload length is not 32, the cHRM
decoder fails fatally — it takes no strict-mode flag at all (its length
assertion is called without one), so the failure is identical in strict and
lenient decodes — and for every chromaticity chunk of any length the decoder
leaves the state, in particular the warnings sequence, unchanged: the length
check is its only failure mode and it never appends a warning. -/
theorem chunk_cHRM.parseChunk_bad_length :
    (∀ (header : IPngHeaderDetails) (chunk : PngChunk) (st : DecodeState),
      chunk.dataLength ≠ 32 →
      chunk_cHRM.parseChunk header chunk st =
        (Except.error ⟨chunk, "Invalid data length: " ++ toString chunk.dataLength
          ++ " !== " ++ toString 32⟩, st)) ∧
    (∀ (header : IPngHeaderDetails) (chunk : PngChunk) (st : DecodeState),
      (chunk_cHRM.parseChunk header chunk st).2 = st) := by
  constructor
  · intro header chunk st hlen
    unfold chunk_cHRM.parseChunk assertChunkDataLengthEquals
    simp [hlen]
  · intro header chunk st
    unfold chunk_cHRM.parseChunk assertChunkDataLengthEquals
    split <;> rfl

/-- Witness for C7 at a concrete 31-byte chromaticity chunk and at the
concrete 32-byte one. -/
theorem chunk_cHRM.parseChunk_bad_length_witness :
    chunk_cHRM.parseChunk exHeader ⟨"cHRM", 0, 31⟩ ⟨exCHRMView, []⟩ =
      (Except.error ⟨⟨"cHRM", 0, 31⟩, "Invalid data length: 31 !== 32"⟩,
        ⟨exCHRMView, []⟩) ∧
    (chunk_cHRM.parseChunk exHeader ⟨"cHRM", 0, 32⟩ ⟨exCHRMView, []⟩).2 =
      ⟨exCHRMView, []⟩ := by
  constructor
  · rw [chunk_cHRM.parseChunk_bad_length.1 exHeader ⟨"cHRM", 0, 31⟩
      ⟨exCHRMView, []⟩ (by decide)]
    rfl
  · exact chunk_cHRM.parseChunk_bad_length.2 exHeader ⟨"cHRM", 0, 32⟩ ⟨exCHRMView, []⟩

/-- A conditionally applied `handleWarning` that returns normally extends the
warnings sequence (by the diagnostic, or by nothing). -/
theorem ite_handleWarning_ok {c : Prop} [Decidable c] {e : ChunkError}
    {w w' : List ChunkError} {s : Option Bool}
    (h : (if c then handleWarning e w s else Except.ok w) = Except.ok w') :
    ∃ t, w' = w ++ t := by
  split at h
  · exact ⟨[e], handleWarning_ok h⟩
  · exact ⟨[], by simpa using ((Except.ok.injEq _ _).mp h).symm⟩

/-- C8: every decoder call treats the warnings sequence as append-only: after
any call to `parseChunk_IHDR` (any outcome, any strict-mode flag) the warnings
sequence is the prior sequence with some suffix appended; the cHRM decoder
appends nothing; and in lenient mode a header decode that passes the hard
checks appends its soft diagnostics in validation order — compressionMethod,
then filterMethod, then interlaceMethod — each carrying the offending chunk. -/
theorem warnings_append_only :
    (∀ (chunk : PngChunk) (strictMode : Option Bool) (st : DecodeState),
      ∃ tail, (parseChunk_IHDR chunk strictMode st).2.warnings = st.warnings ++ tail) ∧
    (∀ (header : IPngHeaderDetails) (chunk : PngChunk) (st : DecodeState),
      (chunk_cHRM.parseChunk header chunk st).2.warnings = st.warnings ++ []) ∧
    (∀ (chunk : PngChunk) (strictMode : Option Bool) (st : DecodeState),
      strictMode ≠ some true → chunk.dataLength = 13 →
      isValidBitDepth (getUint8 st.dataView (payloadStart chunk + 8)) = true →
      (parseChunk_IHDR chunk strictMode st).2.warnings =
        st.warnings ++
          ((if getUint8 st.dataView (payloadStart chunk + 10) = 0 then []
            else [⟨chunk, "Compression method \""
              ++ toString (getUint8 st.dataView (payloadStart chunk + 10))
              ++ "\" is not valid"⟩]) ++
           (if getUint8 st.dataView (payloadStart chunk + 11) = 0 then []
            else [⟨chunk, "Filter method \""
              ++ toString (getUint8 st.dataView (payloadStart chunk + 11))
              ++ "\" is not valid"⟩]) ++
           (if isValidInterlaceMethod (getUint8 st.dataView (payloadStart chunk + 12)) = true
            then []
            else [⟨chunk, "Interlace method \""
              ++ toString (getUint8 st.dataView (payloadStart chunk + 12))
              ++ "\" is not valid"⟩]))) := by
  refine ⟨?_, ?_, ?_⟩
  · intro chunk strictMode st
    unfold parseChunk_IHDR
    split
    · exact ⟨[], (List.append_nil _).symm⟩
    · dsimp only
      split
      · split
        · exact ⟨[], (List.append_nil _).symm⟩
        · rename_i w1 hC
          obtain ⟨t1, ht1⟩ := assertChunkCompressionMethod_ok hC
          split
          · exact ⟨t1, by simp [ht1]⟩
          · rename_i w2 hF
            obtain ⟨t2, ht2⟩ := ite_handleWarning_ok hF
            split
            · exact ⟨t1 ++ t2, by simp [ht2, ht1]⟩
            · rename_i w3 hI
              obtain ⟨t3, ht3⟩ := ite_handleWarning_ok hI
              exact ⟨t1 ++ t2 ++ t3, by simp [ht3, ht2, ht1]⟩
      · exact ⟨[], (List.append_nil _).symm⟩
  · intro header chunk st
    unfold chunk_cHRM.parseChunk
    split <;> simp
  · intro chunk strictMode st hs hlen hbd
    simp only [payloadStart] at hbd ⊢
    by_cases hc : getUint8 st.dataView
        (chunk.offset + ChunkPartByteLength.Length + ChunkPartByteLength.TypeField + 10) = 0 <;>
    by_cases hf : getUint8 st.dataView
        (chunk.offset + ChunkPartByteLength.Length + ChunkPartByteLength.TypeField + 11) = 0 <;>
    by_cases hi : isValidInterlaceMethod (getUint8 st.dataView
        (chunk.offset + ChunkPartByteLength.Length + ChunkPartByteLength.TypeField + 12)) = true <;>
      · unfold parseChunk_IHDR assertChunkDataLengthEquals assertChunkCompressionMethod handleWarning
        simp [hlen, hbd, hc, hf, hi, hs]

/-- A concrete byte buffer holding one IHDR chunk at offset 0 with valid
length and bitDepth but compressionMethod 9, filterMethod 5 and
interlaceMethod 7. -/
def exIHDRSoftView : Nat → Nat := fun o =>
  [0, 0, 0, 13, 73, 72, 68, 82,
   0, 0, 0, 2, 0, 0, 0, 3, 8, 2, 9, 5, 7].getD o 0

/-- Witness for C8 at a concrete lenient decode whose three soft checks all
fail: the three diagnostics are appended to the empty sequence in validation
order. -/
theorem warnings_append_only_witness :
    (parseChunk_IHDR ⟨"IHDR", 0, 13⟩ none ⟨exIHDRSoftView, []⟩).2.warnings =
      [⟨⟨"IHDR", 0, 13⟩, "Compression method \"9\" is not valid"⟩,
       ⟨⟨"IHDR", 0, 13⟩, "Filter method \"5\" is not valid"⟩,
       ⟨⟨"IHDR", 0, 13⟩, "Interlace method \"7\" is not valid"⟩] := by
  have h := warnings_append_only.2.2 ⟨"IHDR", 0, 13⟩ none ⟨exIHDRSoftView, []⟩
    (by simp) rfl (by decide)
  rw [h]
  rfl

/-- C9: both decoders are deterministic and never mutate the byte view: the
byte-buffer component of the state they return is the input buffer on every
path (although the state type would let them write to it), and — the decoders
being functions of their arguments, with no other state in the model — two
calls on identical (strict-mode setting, chunk record, byte view, warnings)
inputs yield identical outcomes.  The chunk record is never returned modified
anywhere in the model, matching the source, which never writes to `chunk`. -/
theorem decoders_deterministic_and_pure :
    (∀ (chunk : PngChunk) (strictMode : Option Bool) (st : DecodeState),
      (parseChunk_IHDR chunk strictMode st).2.dataView = st.dataView) ∧
    (∀ (header : IPngHeaderDetails) (chunk : PngChunk) (st : DecodeState),
      (chunk_cHRM.parseChunk header chunk st).2.dataView = st.dataView) ∧
    (∀ (chunk : PngChunk) (strictMode : Option Bool) (st : DecodeState),
      parseChunk_IHDR chunk strictMode st = parseChunk_IHDR chunk strictMode st) ∧
    (∀ (header : IPngHeaderDetails) (chunk : PngChunk) (st : DecodeState),
      chunk_cHRM.parseChunk header chunk st = chunk_cHRM.parseChunk header chunk st) := by
  refine ⟨?_, ?_, fun _ _ _ => rfl, fun _ _ _ => rfl⟩
  · intro chunk strictMode st
    unfold parseChunk_IHDR
    split
    · rfl
    · dsimp only
      repeat' split
      all_goals rfl
  · intro header chunk st
    unfold chunk_cHRM.parseChunk
    split <;> rfl

/-- C10: the chromaticity decoder's result is independent of its `header`
argument — the parameter is accepted but never read, so any two header values
give identical outcomes on every byte view, chunk record and state. -/
theorem chunk_cHRM.parseChunk_header_irrelevant :
    ∀ (h1 h2 : IPngHeaderDetails) (chunk : PngChunk) (st : DecodeState),
      chunk_cHRM.parseChunk h1 chunk st = chunk_cHRM.parseChunk h2 chunk st :=
  fun _ _ _ _ => rfl
